import Mathlib

/-!
Verification of the plugin-management core of the godspeed CLI
(`internal/plugin`, in the repository file `internal/devops/devops.go`).

The Go code orchestrates four public operations (Add, Remove, Update,
List) over three sources of truth: a plugin catalog (local JSON snapshot
falling back to an npm registry search), the project manifest
(`package.json` dependencies filtered by the plugin namespace), and
generated artifact files (TypeScript stubs and YAML configs under
`src/eventsources` and `src/datasources`).

The embedding below is a shallow one.  External effects (file reads,
npm child processes, the node descriptor query, the interactive survey
prompt) are supplied through an `Env` of oracles; every operation is a
pure function from an `Env` and a project state `PState` to a new state
together with the list of `Event`s it performed, in order.  File writes
and removals are applied to an association-list file system; npm
invocations carry their success bit and mutate only the dependency map
of the state (the bridge is atomic per its own contract).
-/

namespace GSPlugin

/-- `charsMatch pre cs`: the character list `pre` is an initial segment
of `cs` (structural-recursion model of Go `strings.HasPrefix`). -/
def charsMatch : List Char → List Char → Bool
  | [], _ => true
  | _ :: _, [] => false
  | p :: ps, c :: cs => p == c && charsMatch ps cs

/-- `strStarts s pre`: Go `strings.HasPrefix(s, pre)`. -/
def strStarts (s pre : String) : Bool :=
  charsMatch pre.data s.data

/-- Fuel-indexed worker for `splitStr`: split `cs` at every
non-overlapping, left-to-right occurrence of `sep`, accumulating the
current segment reversed in `acc`.  The fuel is an upper bound on the
characters still to be consumed, so the recursion is structural. -/
def splitFuel (sep : List Char) : Nat → List Char → List Char → List (List Char)
  | 0, acc, cs => [acc.reverse ++ cs]
  | n + 1, acc, cs =>
      match cs with
      | [] => [acc.reverse]
      | c :: rest =>
          if charsMatch sep cs then
            acc.reverse :: splitFuel sep n [] (cs.drop sep.length)
          else
            splitFuel sep n (c :: acc) rest

/-- Go `strings.Split(s, sep)` for a non-empty separator. -/
def splitStr (s sep : String) : List String :=
  (splitFuel sep.data (s.data.length + 1) [] s.data).map
    (fun cs => String.mk cs)

/-- Go map assignment `m[k] = v`: overwrite the key if present, else add it. -/
def mapSet {α : Type} (m : List (String × α)) (k : String) (v : α) :
    List (String × α) :=
  m.filter (fun kv => !(kv.1 == k)) ++ [(k, v)]

/-- Go map lookup `m[k]` (as an `Option`). -/
def mapGet {α : Type} (m : List (String × α)) (k : String) : Option α :=
  (m.find? (fun kv => kv.1 == k)).map (fun kv => kv.2)

/-- Go map deletion / `os.Remove`: drop the key. -/
def mapDel {α : Type} (m : List (String × α)) (k : String) :
    List (String × α) :=
  m.filter (fun kv => !(kv.1 == k))

/-- Go map membership test. -/
def mapHas {α : Type} (m : List (String × α)) (k : String) : Bool :=
  m.any (fun kv => kv.1 == k)

/-- A catalog entry (`type Plugin struct` in the Go source): npm package
name in `value`, short display name, description. -/
structure Plugin where
  value : String
  name : String
  description : String
deriving DecidableEq, Repr

/-- One entry of the `npm search --json` output used by
`searchPluginsFromNpm`. -/
structure NpmSearchResult where
  name : String
  description : String
  version : String
deriving DecidableEq, Repr

/-- The descriptor returned by `getModuleInfo` (the node script reading
`SourceType`, `Type`, `CONFIG_FILE_NAME`, `DEFAULT_CONFIG`). -/
structure ModuleInfo where
  moduleType : String
  loaderFileName : String
  yamlFileName : String
  defaultConfig : List (String × String)
deriving DecidableEq, Repr

/-- Content of a generated file: either plain text (the TypeScript stub)
or a YAML-serialized string map (the config file; serialization by the
external yaml library is kept abstract, the map itself is the content). -/
inductive FileContent where
  | text (s : String)
  | yamlMap (m : List (String × String))
deriving DecidableEq, Repr

/-- One observable action of an operation, in execution order. -/
inductive Event where
  | mkdir (path : String)
  | writeFile (path : String) (content : FileContent)
  | removeFile (path : String)
  | npmInstall (pkgs : List String) (ok : Bool)
  | npmUninstall (pkgs : List String) (ok : Bool)
  | npmUpdate (pkgs : List String) (ok : Bool)
  | errorMsg (msg : String)
  | warn (msg : String)
  | info (msg : String)
deriving DecidableEq, Repr

/-- Project state: the generated-artifact file system and the manifest
dependency map. -/
structure PState where
  files : List (String × FileContent)
  deps : List (String × String)
deriving DecidableEq, Repr

/-- Apply one event to the project state.  A failed npm invocation
leaves the manifest untouched (the bridge call is atomic); a successful
uninstall removes the listed packages, a successful install records them. -/
def step (s : PState) (e : Event) : PState :=
  match e with
  | Event.mkdir _ => s
  | Event.writeFile p c => ⟨mapSet s.files p c, s.deps⟩
  | Event.removeFile p => ⟨mapDel s.files p, s.deps⟩
  | Event.npmInstall pkgs ok =>
      if ok then ⟨s.files, pkgs.foldl (fun d q => mapSet d q "latest") s.deps⟩ else s
  | Event.npmUninstall pkgs ok =>
      if ok then ⟨s.files, s.deps.filter (fun kv => !(pkgs.contains kv.1))⟩ else s
  | Event.npmUpdate _ _ => s
  | Event.errorMsg _ => s
  | Event.warn _ => s
  | Event.info _ => s

/-- Apply a trace of events in order. -/
def run (s : PState) (tr : List Event) : PState :=
  tr.foldl step s

/-- The environment of external oracles an invocation runs against:
project detection, the two catalog sources, the manifest read, the
shared success bit of the (single) npm child process an operation runs,
the descriptor resolver, and the interactive selection result. -/
structure Env where
  isProject : Bool
  pkgExists : Bool
  pkgDeps : Option (List (String × String))
  localSnapshot : Option (Option (List Plugin))
  npmSearch : Option (List NpmSearchResult)
  npmCmdOk : Bool
  resolve : String → Option ModuleInfo
  selection : Option (List String)

/-- `searchPluginsFromNpm`: run `npm search @godspeedsystems/plugins
--json`; on command or unmarshal failure (`none`) report an error,
otherwise keep the results whose name contains `plugins-` and map each
to a `Plugin`, the display name being the part after the prefix. -/
def searchPluginsFromNpm (npm : Option (List NpmSearchResult)) :
    Except Unit (List Plugin) :=
  match npm with
  | none => Except.error ()
  | some searchResults =>
      Except.ok (searchResults.foldl
        (fun plugins result =>
          match splitStr result.name "plugins-" with
          | _ :: second :: _ =>
              plugins ++ [⟨result.name, second, result.description⟩]
          | _ => plugins) [])

/-- `LoadPluginsList`: read `assets/plugins_list.json` next to the
executable.  A read failure (`none`) falls back to the npm search; a
successful read followed by a JSON unmarshal failure (`some none`) is an
error without consulting npm; a parsed file (`some (some ps)`) is
returned as-is. -/
def LoadPluginsList (localSnapshot : Option (Option (List Plugin)))
    (npm : Option (List NpmSearchResult)) : Except Unit (List Plugin) :=
  match localSnapshot with
  | none => searchPluginsFromNpm npm
  | some parsed =>
      match parsed with
      | none => Except.error ()
      | some plugins => Except.ok plugins

/-- `GetInstalledPlugins`: inside a project with a readable, parseable
`package.json`, the dependencies whose identifier starts with
`@godspeedsystems/plugins`. -/
def GetInstalledPlugins (env : Env) : Option (List (String × String)) :=
  if !env.isProject then none
  else if !env.pkgExists then none
  else
    match env.pkgDeps with
    | none => none
    | some deps =>
        some (deps.filter (fun kv => strStarts kv.1 "@godspeedsystems/plugins"))

/-- The module type constants of the Go source. -/
def ModuleTypeDS : String := "DS"

def ModuleTypeES : String := "ES"

def ModuleTypeBoth : String := "BOTH"

/-- The YAML config mapping written next to a plugin: a base map with
`type` set to the loader file name, then every defaultConfig entry
assigned over it (Go map insertion, so a duplicate key overwrites). -/
def buildConfig (loaderFileName : String)
    (defaultConfig : List (String × String)) : List (String × String) :=
  defaultConfig.foldl (fun config kv => mapSet config kv.1 kv.2)
    (mapSet [] "type" loaderFileName)

/-- The actions of `createEventSourceFiles` in order: ensure the types
directory, write the TypeScript re-export stub, write the YAML config. -/
def esTrace (pluginName loaderFileName yamlFileName : String)
    (defaultConfig : List (String × String)) : List Event :=
  [Event.mkdir "src/eventsources/types",
    Event.writeFile ("src/eventsources/types/" ++ loaderFileName ++ ".ts")
      (FileContent.text ("\nimport \x7b EventSource \x7d from \x27" ++ pluginName ++
        "\x27;\nexport default EventSource;\n\t")),
    Event.writeFile ("src/eventsources/" ++ yamlFileName ++ ".yaml")
      (FileContent.yamlMap (buildConfig loaderFileName defaultConfig))]

/-- `createEventSourceFiles`: perform `esTrace` on the state. -/
def createEventSourceFiles (pluginName loaderFileName yamlFileName : String)
    (defaultConfig : List (String × String)) (s : PState) :
    PState × List Event :=
  (run s (esTrace pluginName loaderFileName yamlFileName defaultConfig),
    esTrace pluginName loaderFileName yamlFileName defaultConfig)

/-- The actions of `createDataSourceFiles` in order: like the
event-source variant, but a `prisma` loader skips the YAML config. -/
def dsTrace (pluginName loaderFileName yamlFileName : String)
    (defaultConfig : List (String × String)) : List Event :=
  let e1 := Event.mkdir "src/datasources/types"
  let e2 := Event.writeFile ("src/datasources/types/" ++ loaderFileName ++ ".ts")
      (FileContent.text ("\nimport \x7b DataSource \x7d from \x27" ++ pluginName ++
        "\x27;\nexport default DataSource;\n\t"))
  if loaderFileName == "prisma" then [e1, e2]
  else
    [e1, e2,
      Event.writeFile ("src/datasources/" ++ yamlFileName ++ ".yaml")
        (FileContent.yamlMap (buildConfig loaderFileName defaultConfig))]

/-- `createDataSourceFiles`: perform `dsTrace` on the state. -/
def createDataSourceFiles (pluginName loaderFileName yamlFileName : String)
    (defaultConfig : List (String × String)) (s : PState) :
    PState × List Event :=
  (run s (dsTrace pluginName loaderFileName yamlFileName defaultConfig),
    dsTrace pluginName loaderFileName yamlFileName defaultConfig)

/-- `createPluginFiles`: resolve the descriptor (`getModuleInfo`, an
external node call given by `env.resolve`) and create the files per
module type; resolution failure or an unknown module type is an error
before any file is touched. -/
def createPluginFiles (pluginName : String) (env : Env) (s : PState) :
    Except Unit (PState × List Event) :=
  match env.resolve pluginName with
  | none => Except.error ()
  | some info =>
      if info.moduleType == ModuleTypeBoth then
        let r1 := createEventSourceFiles pluginName info.loaderFileName
          info.yamlFileName info.defaultConfig s
        let r2 := createDataSourceFiles pluginName info.loaderFileName
          info.yamlFileName info.defaultConfig r1.1
        Except.ok (r2.1, r1.2 ++ r2.2)
      else if info.moduleType == ModuleTypeDS then
        Except.ok (createDataSourceFiles pluginName info.loaderFileName
          info.yamlFileName info.defaultConfig s)
      else if info.moduleType == ModuleTypeES then
        Except.ok (createEventSourceFiles pluginName info.loaderFileName
          info.yamlFileName info.defaultConfig s)
      else Except.error ()

/-- The actions of `removeEventSourceFiles` in order: delete the stub
and the YAML config, each only if it exists (already-absent files are a
silent no-op). -/
def removeESTrace (loaderFileName yamlFileName : String) (s : PState) :
    List Event :=
  let tsPath := "src/eventsources/types/" ++ loaderFileName ++ ".ts"
  let t1 := if mapHas s.files tsPath then [Event.removeFile tsPath]
    else ([] : List Event)
  let yamlPath := "src/eventsources/" ++ yamlFileName ++ ".yaml"
  let t2 := if mapHas (run s t1).files yamlPath then [Event.removeFile yamlPath]
    else ([] : List Event)
  t1 ++ t2

/-- `removeEventSourceFiles`: perform `removeESTrace` on the state. -/
def removeEventSourceFiles (loaderFileName yamlFileName : String)
    (s : PState) : PState × List Event :=
  (run s (removeESTrace loaderFileName yamlFileName s),
    removeESTrace loaderFileName yamlFileName s)

/-- The actions of `removeDataSourceFiles` in order: delete the stub,
and, unless the loader is `prisma`, the YAML config, each only if it
exists. -/
def removeDSTrace (loaderFileName yamlFileName : String) (s : PState) :
    List Event :=
  let tsPath := "src/datasources/types/" ++ loaderFileName ++ ".ts"
  let t1 := if mapHas s.files tsPath then [Event.removeFile tsPath]
    else ([] : List Event)
  if loaderFileName == "prisma" then t1
  else
    let yamlPath := "src/datasources/" ++ yamlFileName ++ ".yaml"
    let t2 := if mapHas (run s t1).files yamlPath then [Event.removeFile yamlPath]
      else ([] : List Event)
    t1 ++ t2

/-- `removeDataSourceFiles`: perform `removeDSTrace` on the state. -/
def removeDataSourceFiles (loaderFileName yamlFileName : String)
    (s : PState) : PState × List Event :=
  (run s (removeDSTrace loaderFileName yamlFileName s),
    removeDSTrace loaderFileName yamlFileName s)

/-- `removePluginFiles`: resolve the descriptor, then remove the files
per module type; resolution failure or an unknown module type is an
error before any file is touched. -/
def removePluginFiles (pluginName : String) (env : Env) (s : PState) :
    Except Unit (PState × List Event) :=
  match env.resolve pluginName with
  | none => Except.error ()
  | some info =>
      if info.moduleType == ModuleTypeBoth then
        let r1 := removeEventSourceFiles info.loaderFileName info.yamlFileName s
        let r2 := removeDataSourceFiles info.loaderFileName info.yamlFileName r1.1
        Except.ok (r2.1, r1.2 ++ r2.2)
      else if info.moduleType == ModuleTypeDS then
        Except.ok (removeDataSourceFiles info.loaderFileName info.yamlFileName s)
      else if info.moduleType == ModuleTypeES then
        Except.ok (removeEventSourceFiles info.loaderFileName info.yamlFileName s)
      else Except.error ()

/-- The per-plugin file-creation loop of `installPlugins`
(`for _, pluginName := range plugins`): a failing plugin is reported
and the loop continues with the state it had. -/
def createEach : List String → Env → PState → PState × List Event
  | [], _, s => (s, [])
  | p :: ps, env, s =>
      match createPluginFiles p env s with
      | Except.error _ =>
          let r := createEach ps env s
          (r.1, Event.errorMsg ("Error creating files for " ++ p) :: r.2)
      | Except.ok pr =>
          let r := createEach ps env pr.1
          (r.1, pr.2 ++ r.2)

/-- The per-plugin file-cleanup loop of `removePlugins`: a failing
plugin is reported and the loop continues with the state it had. -/
def removeEach : List String → Env → PState → PState × List Event
  | [], _, s => (s, [])
  | p :: ps, env, s =>
      match removePluginFiles p env s with
      | Except.error _ =>
          let r := removeEach ps env s
          (r.1, Event.errorMsg ("Error removing files for " ++ p) :: r.2)
      | Except.ok pr =>
          let r := removeEach ps env pr.1
          (r.1, pr.2 ++ r.2)

/-- `installPlugins`: a single batched `npm install` over all the
plugins; on failure the whole batch stops there, on success the files
of each plugin are created, a per-plugin failure being reported without
stopping the loop. -/
def installPlugins (plugins : List String) (env : Env) (s : PState) :
    PState × List Event :=
  if plugins.isEmpty then (s, [])
  else
    let ev := Event.npmInstall plugins env.npmCmdOk
    let s1 := step s ev
    if !env.npmCmdOk then (s1, [ev, Event.errorMsg "Error installing plugins"])
    else
      let r := createEach plugins env s1
      (r.1, ev :: Event.info "Plugins installed successfully!" ::
        r.2 ++ [Event.info "Happy coding with Godspeed!"])

/-- `removePlugins`: first the file cleanup of every plugin in order (a
per-plugin resolution failure is reported and its cleanup skipped),
then a single batched `npm uninstall` over all the plugins. -/
def removePlugins (plugins : List String) (env : Env) (s : PState) :
    PState × List Event :=
  if plugins.isEmpty then (s, [])
  else
    let r := removeEach plugins env s
    let ev := Event.npmUninstall plugins env.npmCmdOk
    let s2 := step r.1 ev
    if !env.npmCmdOk then (s2, r.2 ++ [ev, Event.errorMsg "Error uninstalling plugins"])
    else (s2, r.2 ++ [ev, Event.info "Plugins uninstalled successfully!",
      Event.info "Happy coding with Godspeed!"])

/-- `updatePlugins`: a single batched `npm update`; no file is touched. -/
def updatePlugins (plugins : List String) (env : Env) (s : PState) :
    PState × List Event :=
  if plugins.isEmpty then (s, [])
  else
    let ev := Event.npmUpdate plugins env.npmCmdOk
    let s1 := step s ev
    if !env.npmCmdOk then (s1, [ev, Event.errorMsg "Error updating plugins"])
    else (s1, [ev, Event.info "Plugins updated successfully!",
      Event.info "Happy coding with Godspeed!"])

/-- `Add`: load catalog and installed set; with an explicit name, check
catalog membership, then installed status, then install; with no name,
run the interactive multi-select over the missing plugins. -/
def Add (pluginName : String) (env : Env) (s : PState) : PState × List Event :=
  if !env.isProject then (s, [])
  else
    match LoadPluginsList env.localSnapshot env.npmSearch with
    | Except.error _ => (s, [Event.errorMsg "Error loading plugins list"])
    | Except.ok availablePlugins =>
        match GetInstalledPlugins env with
        | none => (s, [Event.errorMsg "Error checking installed plugins"])
        | some installedPlugins =>
            let missingPlugins := availablePlugins.filter
              (fun pl => !(mapHas installedPlugins pl.value))
            if pluginName == "" then
              if missingPlugins.isEmpty then
                (s, [Event.errorMsg "All plugins are already installed."])
              else
                let optionsMap := missingPlugins.map
                  (fun pl => (pl.name ++ " - " ++ pl.description, pl.value))
                match env.selection with
                | none => (s, [Event.errorMsg "selection error"])
                | some selectedPlugins =>
                    if selectedPlugins.isEmpty then
                      (s, [Event.errorMsg "No plugins selected."])
                    else
                      let pluginsToInstall := selectedPlugins.map
                        (fun nm => (mapGet optionsMap nm).getD "")
                      installPlugins pluginsToInstall env s
            else
              let found := availablePlugins.any (fun pl => pl.value == pluginName)
              if !found then (s, [Event.errorMsg "Please provide a valid plugin name."])
              else if mapHas installedPlugins pluginName then
                (s, [Event.warn ("Plugin " ++ pluginName ++ " is already installed.")])
              else
                let r := installPlugins [pluginName] env s
                (r.1, r.2 ++ [Event.info
                  ("For detailed documentation and examples, visit: https://www.npmjs.com/package/"
                    ++ pluginName)])

/-- `Remove`: check installed set; with an explicit name require it to
be installed, else run the interactive multi-select (with catalog
descriptions); then `removePlugins`. -/
def Remove (pluginName : String) (env : Env) (s : PState) : PState × List Event :=
  if !env.isProject then (s, [])
  else
    match GetInstalledPlugins env with
    | none => (s, [Event.errorMsg "Error checking installed plugins"])
    | some installedPlugins =>
        if installedPlugins.isEmpty then
          (s, [Event.errorMsg "There are no eventsource/datasource plugins installed."])
        else if !(pluginName == "") then
          if !(mapHas installedPlugins pluginName) then
            (s, [Event.errorMsg ("Plugin " ++ pluginName ++ " is not installed.")])
          else removePlugins [pluginName] env s
        else
          match LoadPluginsList env.localSnapshot env.npmSearch with
          | Except.error _ => (s, [Event.errorMsg "Error loading plugins list"])
          | Except.ok availablePlugins =>
              let pluginDescriptions := availablePlugins.foldl
                (fun m pl => mapSet m pl.value pl.description) []
              let optionsMap := installedPlugins.map (fun kv =>
                let description := (mapGet pluginDescriptions kv.1).getD ""
                let description :=
                  if description == "" then "No description available" else description
                (kv.1 ++ " - " ++ description, kv.1))
              match env.selection with
              | none => (s, [Event.errorMsg "selection error"])
              | some selectedPlugins =>
                  if selectedPlugins.isEmpty then
                    (s, [Event.errorMsg "No plugins selected to remove."])
                  else
                    removePlugins (selectedPlugins.map
                      (fun nm => (mapGet optionsMap nm).getD "")) env s

/-- `Update`: check installed set, load catalog descriptions, run the
interactive multi-select over the installed plugins, then
`updatePlugins` (which never touches files). -/
def Update (env : Env) (s : PState) : PState × List Event :=
  if !env.isProject then (s, [])
  else
    match GetInstalledPlugins env with
    | none => (s, [Event.errorMsg "Error checking installed plugins"])
    | some installedPlugins =>
        if installedPlugins.isEmpty then
          (s, [Event.errorMsg "There are no eventsource/datasource plugins installed."])
        else
          match LoadPluginsList env.localSnapshot env.npmSearch with
          | Except.error _ => (s, [Event.errorMsg "Error loading plugins list"])
          | Except.ok availablePlugins =>
              let pluginDescriptions := availablePlugins.foldl
                (fun m pl => mapSet m pl.value pl.description) []
              let optionsMap := installedPlugins.map (fun kv =>
                let description := (mapGet pluginDescriptions kv.1).getD ""
                let description :=
                  if description == "" then "No description available" else description
                (kv.1 ++ " - " ++ description, kv.1))
              match env.selection with
              | none => (s, [Event.errorMsg "selection error"])
              | some selectedPlugins =>
                  if selectedPlugins.isEmpty then
                    (s, [Event.errorMsg "No plugins selected to update."])
                  else
                    updatePlugins (selectedPlugins.map
                      (fun nm => (mapGet optionsMap nm).getD "")) env s

/-- Event classifiers used in the frame statements. -/
def isWriteFileEv : Event → Bool
  | Event.writeFile _ _ => true
  | _ => false

def isRemoveFileEv : Event → Bool
  | Event.removeFile _ => true
  | _ => false

def isMkdirEv : Event → Bool
  | Event.mkdir _ => true
  | _ => false

def isNpmEv : Event → Bool
  | Event.npmInstall _ _ => true
  | Event.npmUninstall _ _ => true
  | Event.npmUpdate _ _ => true
  | _ => false

def isNpmUpdateEv : Event → Bool
  | Event.npmUpdate _ _ => true
  | _ => false

def isErrorEv : Event → Bool
  | Event.errorMsg _ => true
  | _ => false

/-- A trace contains no file-write event at all. -/
def noWrites (tr : List Event) : Bool :=
  tr.all (fun e => !(isWriteFileEv e))

/-- The value of the last entry with key `k` in an entry list (the one a
Go map range-insertion leaves behind). -/
def lastVal (m : List (String × String)) (k : String) : Option String :=
  (m.reverse.find? (fun kv => kv.1 == k)).map (fun kv => kv.2)

/-- What a single event does to the file at `q`: `some (some c)` writes
`c`, `some none` deletes, `none` leaves it alone. -/
def evEffect (e : Event) (q : String) : Option (Option FileContent) :=
  match e with
  | Event.writeFile p c => if q = p then some (some c) else none
  | Event.removeFile p => if q = p then some none else none
  | _ => none

/-- The net effect of a trace on the file at `q` (the last write or
delete wins). -/
def trEffect : List Event → String → Option (Option FileContent)
  | [], _ => none
  | e :: tr, q => (trEffect tr q).or (evEffect e q)

/-- Resolve an optional effect against the current content of a file. -/
def applyEff (eff : Option (Option FileContent)) (cur : Option FileContent) :
    Option FileContent :=
  match eff with
  | some r => r
  | none => cur

/-- The paths of the files a trace writes, in order. -/
def writePaths (tr : List Event) : List String :=
  tr.filterMap (fun e =>
    match e with
    | Event.writeFile q _ => some q
    | _ => none)

/-- The artifact file paths dictated by a descriptor: a pure function
of the module type, the loader id and the config id alone. -/
def artifactPaths (moduleType loaderFileName yamlFileName : String) : List String :=
  let esPaths := ["src/eventsources/types/" ++ loaderFileName ++ ".ts",
    "src/eventsources/" ++ yamlFileName ++ ".yaml"]
  let dsPaths :=
    if loaderFileName == "prisma" then
      ["src/datasources/types/" ++ loaderFileName ++ ".ts"]
    else
      ["src/datasources/types/" ++ loaderFileName ++ ".ts",
        "src/datasources/" ++ yamlFileName ++ ".yaml"]
  if moduleType == ModuleTypeBoth then esPaths ++ dsPaths
  else if moduleType == ModuleTypeDS then dsPaths
  else if moduleType == ModuleTypeES then esPaths
  else []

/-! ## Concrete fixtures for the witness theorems -/

def stEmpty : PState := ⟨[], []⟩

def infoES : ModuleInfo := ⟨"ES", "ld", "cf", []⟩

def envC1 : Env := ⟨true, true, some [], some (some []), none, false, fun _ => none, none⟩

def envC2 : Env := ⟨true, true, some [], none, none, true, fun _ => none, none⟩

def depsC7 : List (String × String) := [("@godspeedsystems/plugins-aws", "1.0.0")]

def availC7 : List Plugin := [⟨"@godspeedsystems/plugins-aws", "aws", "aws plugin"⟩]

def instC7 : List (String × String) := [("@godspeedsystems/plugins-aws", "1.0.0")]

def envC6 : Env :=
  ⟨true, true, some [("@godspeedsystems/plugins-aws", "1.0.0"), ("express", "4.17.0")],
    none, none, true, fun _ => none, none⟩

def depsC6 : List (String × String) :=
  [("@godspeedsystems/plugins-aws", "1.0.0"), ("express", "4.17.0")]

def envC7 : Env :=
  ⟨true, true, some depsC7, some (some availC7), none, true, fun _ => none, none⟩

def envC10 : Env :=
  ⟨true, true, some depsC7, some (some []), none, true, fun _ => none, none⟩

def envC9 : Env := ⟨true, true, some [], none, none, true, fun _ => some infoES, none⟩

def trC9 : List Event := esTrace "pkg" "ld" "cf" []

def s1C9 : PState := run stEmpty trC9

/-! ## Map and trace lemmas -/

theorem find?_filter_self {α : Type} (m : List (String × α)) (k : String) :
    (m.filter (fun kv => !(kv.1 == k))).find? (fun kv => kv.1 == k) = none := by
  induction m with
  | nil => rfl
  | cons a m ih =>
      by_cases h : a.1 = k
      · have hb : (a.1 == k) = true := beq_iff_eq.mpr h
        simpa [List.filter_cons, hb] using ih
      · have hb : (a.1 == k) = false := beq_eq_false_iff_ne.mpr h
        simpa [List.filter_cons, List.find?_cons, hb] using ih

theorem find?_filter_ne {α : Type} (m : List (String × α)) (k q : String)
    (h : q ≠ k) :
    (m.filter (fun kv => !(kv.1 == k))).find? (fun kv => kv.1 == q) =
      m.find? (fun kv => kv.1 == q) := by
  induction m with
  | nil => rfl
  | cons a m ih =>
      by_cases h1 : a.1 = k
      · have hb : (a.1 == k) = true := beq_iff_eq.mpr h1
        have hq : (a.1 == q) = false := by
          refine beq_eq_false_iff_ne.mpr ?_
          rw [h1]
          exact fun hk => h hk.symm
        simpa [List.filter_cons, List.find?_cons, hb, hq] using ih
      · have hb : (a.1 == k) = false := beq_eq_false_iff_ne.mpr h1
        by_cases h2 : a.1 = q
        · have hq : (a.1 == q) = true := beq_iff_eq.mpr h2
          simp [List.filter_cons, List.find?_cons, hb, hq]
        · have hq : (a.1 == q) = false := beq_eq_false_iff_ne.mpr h2
          simpa [List.filter_cons, List.find?_cons, hb, hq] using ih

theorem mapGet_set {α : Type} (m : List (String × α)) (k : String) (v : α)
    (q : String) :
    mapGet (mapSet m k v) q = if q = k then some v else mapGet m q := by
  by_cases h : q = k
  · subst h
    simp [mapGet, mapSet, List.find?_append, find?_filter_self]
  · simp [mapGet, mapSet, List.find?_append, find?_filter_ne m k q h,
      Ne.symm h, h]

theorem mapGet_del {α : Type} (m : List (String × α)) (p q : String) :
    mapGet (mapDel m p) q = if q = p then none else mapGet m q := by
  by_cases h : q = p
  · subst h
    simp [mapGet, mapDel, find?_filter_self]
  · simp [mapGet, mapDel, find?_filter_ne m p q h, h]

theorem step_files_get (s : PState) (e : Event) (q : String) :
    mapGet (step s e).files q = applyEff (evEffect e q) (mapGet s.files q) := by
  cases e with
  | writeFile p c =>
      by_cases h : q = p <;> simp [step, evEffect, applyEff, mapGet_set, h]
  | removeFile p =>
      by_cases h : q = p <;> simp [step, evEffect, applyEff, mapGet_del, h]
  | npmInstall pkgs ok => cases ok <;> simp [step, evEffect, applyEff]
  | npmUninstall pkgs ok => cases ok <;> simp [step, evEffect, applyEff]
  | npmUpdate pkgs ok => simp [step, evEffect, applyEff]
  | mkdir p => simp [step, evEffect, applyEff]
  | errorMsg m => simp [step, evEffect, applyEff]
  | warn m => simp [step, evEffect, applyEff]
  | info m => simp [step, evEffect, applyEff]

theorem run_files_get (tr : List Event) :
    ∀ (s : PState) (q : String),
      mapGet (run s tr).files q = applyEff (trEffect tr q) (mapGet s.files q) := by
  induction tr with
  | nil => intro s q; simp [run, trEffect, applyEff]
  | cons e tr ih =>
      intro s q
      have hstep : run s (e :: tr) = run (step s e) tr := rfl
      rw [hstep, ih, step_files_get]
      show applyEff (trEffect tr q) (applyEff (evEffect e q) (mapGet s.files q)) =
        applyEff ((trEffect tr q).or (evEffect e q)) (mapGet s.files q)
      cases trEffect tr q <;> simp [applyEff, Option.none_or, Option.or_some]

theorem run_run_files (tr : List Event) (s : PState) (q : String) :
    mapGet (run (run s tr) tr).files q = mapGet (run s tr).files q := by
  rw [run_files_get tr (run s tr) q, run_files_get tr s q]
  cases trEffect tr q <;> simp [applyEff]

theorem run_append (s : PState) (t1 t2 : List Event) :
    run s (t1 ++ t2) = run (run s t1) t2 :=
  List.foldl_append step s t1 t2

/-! ## Config merge lemmas -/

theorem foldl_set_get (dc : List (String × String)) :
    ∀ (m : List (String × String)) (k : String),
      mapGet (dc.foldl (fun config kv => mapSet config kv.1 kv.2) m) k =
        (lastVal dc k).or (mapGet m k) := by
  induction dc with
  | nil => intro m k; simp [lastVal, Option.none_or]
  | cons kv dc ih =>
      intro m k
      have hfold : (kv :: dc).foldl (fun config kv => mapSet config kv.1 kv.2) m =
        dc.foldl (fun config kv => mapSet config kv.1 kv.2) (mapSet m kv.1 kv.2) := rfl
      rw [hfold, ih, mapGet_set]
      have hlast : lastVal (kv :: dc) k =
          (lastVal dc k).or (if kv.1 == k then some kv.2 else none) := by
        simp only [lastVal, List.reverse_cons, List.find?_append]
        cases h : (dc.reverse.find? (fun kv => kv.1 == k)) with
        | none =>
            cases h2 : (kv.1 == k) <;>
              simp [List.find?_cons, h2, Option.none_or]
        | some a => simp [Option.or_some]
      rw [hlast]
      cases h : lastVal dc k with
      | some v => simp [Option.or_some]
      | none =>
          by_cases h2 : k = kv.1
          · simp [h2, Option.none_or]
          · have h3 : (kv.1 == k) = false := by
              simp [beq_eq_false_iff_ne]
              exact fun hq => h2 hq.symm
            simp [h3, h2, Option.none_or]

theorem buildConfig_type (loaderFileName : String)
    (defaultConfig : List (String × String)) :
    mapGet (buildConfig loaderFileName defaultConfig) "type" =
      (lastVal defaultConfig "type").or (some loaderFileName) := by
  rw [buildConfig, foldl_set_get, mapGet_set]
  simp

/-! ## Operation lemmas -/

theorem removePluginFiles_error (p : String) (env : Env) (s : PState)
    (hres : env.resolve p = none) :
    removePluginFiles p env s = Except.error () := by
  unfold removePluginFiles
  rw [hres]

theorem removeESTrace_events (l y : String) (s : PState) :
    ∀ e ∈ removeESTrace l y s, isRemoveFileEv e = true := by
  intro e he
  simp only [removeESTrace] at he
  rcases List.mem_append.mp he with h | h <;>
    split at h <;> simp_all [isRemoveFileEv]

theorem removeDSTrace_events (l y : String) (s : PState) :
    ∀ e ∈ removeDSTrace l y s, isRemoveFileEv e = true := by
  intro e he
  simp only [removeDSTrace] at he
  split at he
  · split at he <;> simp_all [isRemoveFileEv]
  · rcases List.mem_append.mp he with h | h <;>
      split at h <;> simp_all [isRemoveFileEv]

theorem removePluginFiles_ok (p : String) (env : Env) (s s' : PState)
    (tr : List Event) (h : removePluginFiles p env s = Except.ok (s', tr)) :
    s' = run s tr ∧ ∀ e ∈ tr, isRemoveFileEv e = true := by
  unfold removePluginFiles at h
  cases hres : env.resolve p with
  | none => rw [hres] at h; cases h
  | some info =>
      rw [hres] at h
      dsimp only at h
      by_cases hb : (info.moduleType == ModuleTypeBoth) = true
      · rw [if_pos hb] at h
        simp only [removeEventSourceFiles, removeDataSourceFiles] at h
        injection h with h
        injection h with h1 h2
        subst h2
        constructor
        · rw [← h1, run_append]
        · intro e he
          rcases List.mem_append.mp he with hm | hm
          · exact removeESTrace_events _ _ _ e hm
          · exact removeDSTrace_events _ _ _ e hm
      · rw [if_neg hb] at h
        by_cases hd : (info.moduleType == ModuleTypeDS) = true
        · rw [if_pos hd] at h
          simp only [removeDataSourceFiles] at h
          injection h with h
          injection h with h1 h2
          subst h2
          exact ⟨h1.symm, removeDSTrace_events _ _ _⟩
        · rw [if_neg hd] at h
          by_cases he : (info.moduleType == ModuleTypeES) = true
          · rw [if_pos he] at h
            simp only [removeEventSourceFiles] at h
            injection h with h
            injection h with h1 h2
            subst h2
            exact ⟨h1.symm, removeESTrace_events _ _ _⟩
          · rw [if_neg he] at h
            cases h

theorem removeEach_events (plugins : List String) (env : Env) :
    ∀ (s : PState), ∀ e ∈ (removeEach plugins env s).2,
      isRemoveFileEv e = true ∨ isErrorEv e = true := by
  induction plugins with
  | nil => intro s e he; simp [removeEach] at he
  | cons p ps ih =>
      intro s e he
      simp only [removeEach] at he
      cases hr : removePluginFiles p env s with
      | error u =>
          rw [hr] at he
          simp only [List.mem_cons] at he
          rcases he with h | h
          · subst h; right; rfl
          · exact ih s e h
      | ok pr =>
          rw [hr] at he
          simp only [List.mem_append] at he
          rcases he with h | h
          · left
            exact (removePluginFiles_ok p env s pr.1 pr.2 (by rw [hr])).2 e h
          · exact ih pr.1 e h

theorem removeEach_error_mem (p : String) (env : Env)
    (hres : env.resolve p = none) :
    ∀ (plugins : List String), p ∈ plugins →
      ∀ (s : PState),
        Event.errorMsg ("Error removing files for " ++ p) ∈
          (removeEach plugins env s).2 := by
  intro plugins
  induction plugins with
  | nil => intro h; cases h
  | cons q ps ih =>
      intro hmem s
      rcases List.mem_cons.mp hmem with h | h
      · subst h
        have herr : removePluginFiles p env s = Except.error () :=
          removePluginFiles_error p env s hres
        simp only [removeEach, herr]
        exact List.mem_cons_self _ _
      · simp only [removeEach]
        cases hr : removePluginFiles q env s with
        | error u => exact List.mem_cons_of_mem _ (ih h s)
        | ok pr => exact List.mem_append_right _ (ih h pr.1)

theorem writePaths_append (t1 t2 : List Event) :
    writePaths (t1 ++ t2) = writePaths t1 ++ writePaths t2 :=
  List.filterMap_append ..

theorem createPluginFiles_spec (p : String) (env : Env) (info : ModuleInfo)
    (s s' : PState) (tr : List Event)
    (hres : env.resolve p = some info)
    (h : createPluginFiles p env s = Except.ok (s', tr)) :
    s' = run s tr ∧
    (∀ s₀, createPluginFiles p env s₀ = Except.ok (run s₀ tr, tr)) ∧
    writePaths tr =
      artifactPaths info.moduleType info.loaderFileName info.yamlFileName := by
  unfold createPluginFiles at h
  rw [hres] at h
  dsimp only at h
  by_cases hb : (info.moduleType == ModuleTypeBoth) = true
  · rw [if_pos hb] at h
    simp only [createEventSourceFiles, createDataSourceFiles] at h
    injection h with h
    injection h with h1 h2
    subst h2
    refine ⟨by rw [← h1, run_append], ?_, ?_⟩
    · intro s₀
      unfold createPluginFiles
      rw [hres]
      dsimp only
      rw [if_pos hb]
      simp only [createEventSourceFiles, createDataSourceFiles]
      rw [run_append]
    · by_cases hp : (info.loaderFileName == "prisma") = true <;>
        simp [writePaths_append, writePaths, esTrace, dsTrace, artifactPaths,
          hb, hp]
  · rw [if_neg hb] at h
    by_cases hd : (info.moduleType == ModuleTypeDS) = true
    · rw [if_pos hd] at h
      simp only [createDataSourceFiles] at h
      injection h with h
      injection h with h1 h2
      subst h2
      refine ⟨h1.symm, ?_, ?_⟩
      · intro s₀
        unfold createPluginFiles
        rw [hres]
        dsimp only
        rw [if_neg hb, if_pos hd]
        rfl
      · by_cases hp : (info.loaderFileName == "prisma") = true <;>
          simp [writePaths, dsTrace, artifactPaths, hb, hd, hp]
    · rw [if_neg hd] at h
      by_cases he : (info.moduleType == ModuleTypeES) = true
      · rw [if_pos he] at h
        simp only [createEventSourceFiles] at h
        injection h with h
        injection h with h1 h2
        subst h2
        refine ⟨h1.symm, ?_, ?_⟩
        · intro s₀
          unfold createPluginFiles
          rw [hres]
          dsimp only
          rw [if_neg hb, if_neg hd, if_pos he]
          rfl
        · simp [writePaths, esTrace, artifactPaths, hb, hd, he]
      · rw [if_neg he] at h
        cases h

theorem installPlugins_fail (plugins : List String) (env : Env) (s : PState)
    (h : env.npmCmdOk = false) :
    (installPlugins plugins env s).1 = s ∧
    noWrites (installPlugins plugins env s).2 = true := by
  unfold installPlugins
  cases hp : plugins.isEmpty with
  | true => simp [hp, noWrites]
  | false => simp [hp, h, step, noWrites, isWriteFileEv]

/-! ## Claim theorems -/

/-- C1: if the package-manager install invocation fails during `Add`,
the whole batch fails: no artifact file is created (no write event at
all) and the state — file system and installed set — is unchanged.
This holds for `installPlugins` (the batch installer `Add` uses) and
for `Add` itself, whatever its arguments. -/
theorem c1_install_failure_frame (name : String) (env : Env) (s : PState)
    (h : env.npmCmdOk = false) :
    (∀ plugins, (installPlugins plugins env s).1 = s ∧
      noWrites (installPlugins plugins env s).2 = true) ∧
    (Add name env s).1 = s ∧
    noWrites (Add name env s).2 = true := by
  refine ⟨fun plugins => installPlugins_fail plugins env s h, ?_⟩
  unfold Add
  cases hip : env.isProject with
  | false => simp [noWrites]
  | true =>
      cases hload : LoadPluginsList env.localSnapshot env.npmSearch with
      | error u => simp [noWrites, isWriteFileEv]
      | ok avail =>
          cases hinst : GetInstalledPlugins env with
          | none => simp [noWrites, isWriteFileEv]
          | some inst =>
              cases hname : (name == "") with
              | true =>
                  cases hmiss :
                      (avail.filter (fun pl => !(mapHas inst pl.value))).isEmpty with
                  | true => simp [hmiss, noWrites, isWriteFileEv]
                  | false =>
                      cases hsel : env.selection with
                      | none => simp [hmiss, hsel, noWrites, isWriteFileEv]
                      | some sel =>
                          cases hse : sel.isEmpty with
                          | true => simp [hmiss, hsel, hse, noWrites, isWriteFileEv]
                          | false =>
                              simp only [hmiss, hsel, hse, Bool.false_eq_true,
                                if_false, ite_false]
                              exact installPlugins_fail _ env s h
              | false =>
                  cases hfound : avail.any (fun pl => pl.value == name) with
                  | false => simp [hfound, noWrites, isWriteFileEv]
                  | true =>
                      cases hin : mapHas inst name with
                      | true => simp [hfound, hin, noWrites, isWriteFileEv]
                      | false =>
                          have hf := installPlugins_fail [name] env s h
                          simp only [hfound, hin, Bool.not_false, Bool.not_true,
                            Bool.false_eq_true, Bool.true_eq_false, if_false,
                            if_true, ite_false, ite_true]
                          refine ⟨hf.1, ?_⟩
                          have hnw := hf.2
                          simp only [noWrites, List.all_append, Bool.and_eq_true,
                            List.all_eq_true] at hnw ⊢
                          exact ⟨hnw, by simp [isWriteFileEv]⟩

/-- C2: in `Remove`'s batch phase, the trace is exactly the per-plugin
artifact cleanup (whose events are only file removals and per-plugin
error reports), followed by the single `npm uninstall` invocation that
lists every identifier of the batch, followed by messages only; an
identifier whose descriptor resolution fails contributes no cleanup —
`removePluginFiles` errors before touching any file — but is reported
and still appears in the uninstall batch. -/
theorem c2_cleanup_before_uninstall (p : String) (rest : List String)
    (env : Env) (s : PState) :
    (removePlugins (p :: rest) env s).2 =
      (removeEach (p :: rest) env s).2 ++
        Event.npmUninstall (p :: rest) env.npmCmdOk ::
          (if env.npmCmdOk then
            [Event.info "Plugins uninstalled successfully!",
              Event.info "Happy coding with Godspeed!"]
          else [Event.errorMsg "Error uninstalling plugins"]) ∧
    (∀ e ∈ (removeEach (p :: rest) env s).2,
      isRemoveFileEv e = true ∨ isErrorEv e = true) ∧
    (∀ q ∈ p :: rest, env.resolve q = none →
      removePluginFiles q env s = Except.error () ∧
      Event.errorMsg ("Error removing files for " ++ q) ∈
        (removeEach (p :: rest) env s).2) := by
  refine ⟨?_, removeEach_events _ env s, ?_⟩
  · unfold removePlugins
    cases hok : env.npmCmdOk <;> simp [hok]
  · intro q hq hres
    exact ⟨removePluginFiles_error q env s hres,
      removeEach_error_mem q env hres _ hq s⟩

/-- C4: `createEventSourceFiles` (and, off the prisma case,
`createDataSourceFiles`) writes the YAML config whose body is the map
built by setting `type` to the loader id first and then inserting every
defaultConfig entry; consequently the `type` key of the written map is
the last defaultConfig value for `type` when one exists (defaultConfig
wins, last-write-wins), and the loader id otherwise. -/
theorem c4_config_merge_order (p l y : String) (dc : List (String × String))
    (s : PState) :
    (createEventSourceFiles p l y dc s).2 =
      [Event.mkdir "src/eventsources/types",
        Event.writeFile ("src/eventsources/types/" ++ l ++ ".ts")
          (FileContent.text ("\nimport \x7b EventSource \x7d from \x27" ++ p ++
            "\x27;\nexport default EventSource;\n\t")),
        Event.writeFile ("src/eventsources/" ++ y ++ ".yaml")
          (FileContent.yamlMap (buildConfig l dc))] ∧
    ((l == "prisma") = false →
      (createDataSourceFiles p l y dc s).2 =
        [Event.mkdir "src/datasources/types",
          Event.writeFile ("src/datasources/types/" ++ l ++ ".ts")
            (FileContent.text ("\nimport \x7b DataSource \x7d from \x27" ++ p ++
              "\x27;\nexport default DataSource;\n\t")),
          Event.writeFile ("src/datasources/" ++ y ++ ".yaml")
            (FileContent.yamlMap (buildConfig l dc))]) ∧
    mapGet (buildConfig l dc) "type" = (lastVal dc "type").or (some l) := by
  refine ⟨rfl, ?_, buildConfig_type l dc⟩
  intro hp
  simp [createDataSourceFiles, dsTrace, hp]

/-- C5: for the `prisma` loader under the DataSource role, creation
writes only the type stub (no YAML config event exists in the trace)
and removal only ever deletes the type stub. -/
theorem c5_prisma_exception (p y : String) (dc : List (String × String))
    (s s' : PState) :
    (createDataSourceFiles p "prisma" y dc s).2 =
      [Event.mkdir "src/datasources/types",
        Event.writeFile ("src/datasources/types/" ++ "prisma" ++ ".ts")
          (FileContent.text ("\nimport \x7b DataSource \x7d from \x27" ++ p ++
            "\x27;\nexport default DataSource;\n\t"))] ∧
    (removeDataSourceFiles "prisma" y s').2.all
      (fun e => e ==
        Event.removeFile ("src/datasources/types/" ++ "prisma" ++ ".ts")) = true := by
  constructor
  · simp [createDataSourceFiles, dsTrace]
  · simp only [removeDataSourceFiles, removeDSTrace]
    split
    · split <;> simp
    · exfalso
      rename_i hcontra
      exact hcontra (by decide)

/-- C6: `GetInstalledPlugins` returns exactly the manifest dependency
entries whose identifier starts with `@godspeedsystems/plugins`; an
entry outside that namespace is never in the result even though it is
in the manifest. -/
theorem c6_namespace_filtering (env : Env) (deps : List (String × String))
    (hp : env.isProject = true) (he : env.pkgExists = true)
    (hd : env.pkgDeps = some deps) :
    GetInstalledPlugins env =
      some (deps.filter (fun kv => strStarts kv.1 "@godspeedsystems/plugins")) ∧
    ∀ kv, kv ∈ deps.filter (fun kv => strStarts kv.1 "@godspeedsystems/plugins") ↔
      (kv ∈ deps ∧ strStarts kv.1 "@godspeedsystems/plugins" = true) := by
  refine ⟨?_, fun kv => List.mem_filter⟩
  simp [GetInstalledPlugins, hp, he, hd]

/-- C9: artifact creation is idempotent and path-deterministic: a
second `createPluginFiles` run with the same identifier and descriptor
performs the identical trace (same paths, byte-identical contents), the
resulting file system is unchanged, and the write paths are the pure
function `artifactPaths` of the module type, loader id and config id
alone. -/
theorem c9_create_idempotent (p : String) (env : Env) (info : ModuleInfo)
    (s s₁ : PState) (tr : List Event)
    (hres : env.resolve p = some info)
    (h : createPluginFiles p env s = Except.ok (s₁, tr)) :
    createPluginFiles p env s₁ = Except.ok (run s₁ tr, tr) ∧
    (∀ q, mapGet (run s₁ tr).files q = mapGet s₁.files q) ∧
    writePaths tr =
      artifactPaths info.moduleType info.loaderFileName info.yamlFileName := by
  obtain ⟨hs, hall, hpaths⟩ := createPluginFiles_spec p env info s s₁ tr hres h
  refine ⟨hall s₁, ?_, hpaths⟩
  intro q
  rw [hs]
  exact run_run_files tr s q

/-- C3 counterexample: the catalog provider can fail although only one
of its two sources failed.  With a readable local snapshot holding
malformed JSON, `LoadPluginsList` returns an error without attempting
the remote search, even though the very same remote search would have
succeeded (here with a non-empty result). -/
theorem c3_counterexample :
    LoadPluginsList (some none)
        (some [⟨"@godspeedsystems/plugins-aws", "aws plugin", "1.0.0"⟩]) =
      Except.error () ∧
    searchPluginsFromNpm
        (some [⟨"@godspeedsystems/plugins-aws", "aws plugin", "1.0.0"⟩]) =
      Except.ok [⟨"@godspeedsystems/plugins-aws", "aws", "aws plugin"⟩] := by
  constructor
  · rfl
  · simp only [searchPluginsFromNpm]
    exact congrArg Except.ok (by decide)

/-- C3 amended: `LoadPluginsList` attempts the remote search whenever
the local snapshot file is missing or unreadable; when the file is
readable but its JSON is malformed it fails immediately without
consulting the remote search; a successfully parsed file is returned
as-is, and an empty plugin list — from either source — is a valid
non-error result distinct from a fetch failure (which is an error from
the remote path only when the search command fails or its output is
malformed). -/
theorem c3_amended_catalog_fallback :
    (∀ npm, LoadPluginsList none npm = searchPluginsFromNpm npm) ∧
    (∀ npm, LoadPluginsList (some none) npm = Except.error ()) ∧
    (∀ npm ps, LoadPluginsList (some (some ps)) npm = Except.ok ps) ∧
    (LoadPluginsList (some (some [])) none = Except.ok []) ∧
    (searchPluginsFromNpm none = Except.error ()) ∧
    (searchPluginsFromNpm (some []) = Except.ok []) :=
  ⟨fun _ => rfl, fun _ => rfl, fun _ _ => rfl, rfl, rfl, rfl⟩

/-- C7: `Add` with an explicit identifier that is in the catalog and
already installed ends with the "already installed" warning — not an
error — and performs nothing else: no file write, no npm invocation,
state unchanged. -/
theorem c7_already_installed_warning (name : String) (env : Env) (s : PState)
    (avail : List Plugin) (inst : List (String × String))
    (hproj : env.isProject = true)
    (hload : LoadPluginsList env.localSnapshot env.npmSearch = Except.ok avail)
    (hinst : GetInstalledPlugins env = some inst)
    (hname : (name == "") = false)
    (hfound : avail.any (fun pl => pl.value == name) = true)
    (hin : mapHas inst name = true) :
    Add name env s =
      (s, [Event.warn ("Plugin " ++ name ++ " is already installed.")]) := by
  unfold Add
  simp [hproj, hload, hinst, hname, hfound, hin]

/-- C10: in `Add` with an explicit identifier, catalog membership is
checked before installed status: an identifier that is installed but
absent from the loaded catalog takes the invalid-plugin-name error
path and is never reported with the "already installed" warning. -/
theorem c10_catalog_checked_before_installed (name : String) (env : Env)
    (s : PState) (avail : List Plugin) (inst : List (String × String))
    (hproj : env.isProject = true)
    (hload : LoadPluginsList env.localSnapshot env.npmSearch = Except.ok avail)
    (hinst : GetInstalledPlugins env = some inst)
    (hname : (name == "") = false)
    (hfound : avail.any (fun pl => pl.value == name) = false)
    (hin : mapHas inst name = true) :
    Add name env s = (s, [Event.errorMsg "Please provide a valid plugin name."]) ∧
    ∀ m, Event.warn m ∉ (Add name env s).2 := by
  have h1 : Add name env s =
      (s, [Event.errorMsg "Please provide a valid plugin name."]) := by
    unfold Add
    simp [hproj, hload, hinst, hname, hfound]
  refine ⟨h1, ?_⟩
  rw [h1]
  simp

/-- C8: `Update` never creates, modifies or removes any artifact file:
whatever the environment and selection, its trace contains no write, no
removal and no directory creation — the only package-manager event it
can contain is the `npm update` invocation — and the file system is
left unchanged. -/
theorem c8_update_touches_no_artifacts (env : Env) (s : PState) :
    (Update env s).1.files = s.files ∧
    (Update env s).2.all (fun e =>
      !(isWriteFileEv e) && !(isRemoveFileEv e) && !(isMkdirEv e) &&
        (!(isNpmEv e) || isNpmUpdateEv e)) = true := by
  unfold Update
  cases hip : env.isProject with
  | false => simp
  | true =>
      cases hinst : GetInstalledPlugins env with
      | none => simp [isWriteFileEv, isRemoveFileEv, isMkdirEv, isNpmEv]
      | some inst =>
          cases hie : inst.isEmpty with
          | true =>
              simp [hie, isWriteFileEv, isRemoveFileEv, isMkdirEv, isNpmEv]
          | false =>
              cases hload : LoadPluginsList env.localSnapshot env.npmSearch with
              | error u =>
                  simp [hie, isWriteFileEv, isRemoveFileEv, isMkdirEv, isNpmEv]
              | ok avail =>
                  cases hsel : env.selection with
                  | none =>
                      simp [hie, isWriteFileEv, isRemoveFileEv, isMkdirEv,
                        isNpmEv]
                  | some sel =>
                      cases hse : sel.isEmpty with
                      | true =>
                          simp [hie, hse, isWriteFileEv, isRemoveFileEv,
                            isMkdirEv, isNpmEv]
                      | false =>
                          simp only [hie, hse, Bool.false_eq_true, if_false,
                            ite_false]
                          unfold updatePlugins
                          cases hm : (sel.map (fun nm =>
                              (mapGet (inst.map (fun kv =>
                                (kv.1 ++ " - " ++
                                  (if (mapGet (avail.foldl (fun m pl =>
                                      mapSet m pl.value pl.description) []) kv.1).getD "" == ""
                                    then "No description available"
                                    else (mapGet (avail.foldl (fun m pl =>
                                      mapSet m pl.value pl.description) []) kv.1).getD ""),
                                  kv.1))) nm).getD "")).isEmpty with
                          | true =>
                              simp [hm]
                          | false =>
                              cases hok : env.npmCmdOk <;>
                                simp [hm, hok, step, isWriteFileEv,
                                  isRemoveFileEv, isMkdirEv, isNpmEv,
                                  isNpmUpdateEv]

/-! ## Witness theorems -/

/-- Witness for C1 at a concrete environment whose npm invocation fails. -/
theorem c1_witness :
    envC1.npmCmdOk = false ∧
    (Add "x" envC1 stEmpty).1 = stEmpty ∧
    noWrites (Add "x" envC1 stEmpty).2 = true ∧
    (installPlugins ["a"] envC1 stEmpty).1 = stEmpty :=
  ⟨rfl, (c1_install_failure_frame "x" envC1 stEmpty rfl).2.1,
    (c1_install_failure_frame "x" envC1 stEmpty rfl).2.2,
    ((c1_install_failure_frame "x" envC1 stEmpty rfl).1 ["a"]).1⟩

/-- Witness for C2 at a one-element batch whose descriptor resolution
fails. -/
theorem c2_witness :
    "a" ∈ ["a"] ∧
    envC2.resolve "a" = none ∧
    removePluginFiles "a" envC2 stEmpty = Except.error () ∧
    Event.errorMsg ("Error removing files for " ++ "a") ∈
      (removeEach ["a"] envC2 stEmpty).2 ∧
    (removePlugins ["a"] envC2 stEmpty).2 =
      (removeEach ["a"] envC2 stEmpty).2 ++
        Event.npmUninstall ["a"] envC2.npmCmdOk ::
          (if envC2.npmCmdOk then
            [Event.info "Plugins uninstalled successfully!",
              Event.info "Happy coding with Godspeed!"]
          else [Event.errorMsg "Error uninstalling plugins"]) :=
  ⟨by simp, rfl,
    ((c2_cleanup_before_uninstall "a" [] envC2 stEmpty).2.2 "a" (by simp) rfl).1,
    ((c2_cleanup_before_uninstall "a" [] envC2 stEmpty).2.2 "a" (by simp) rfl).2,
    (c2_cleanup_before_uninstall "a" [] envC2 stEmpty).1⟩

/-- Witness for C4 at a non-prisma loader whose defaultConfig redefines
`type`. -/
theorem c4_witness :
    (("mongo" == "prisma") = false) ∧
    (createDataSourceFiles "pkg" "mongo" "cfg" [("type", "x")] stEmpty).2 =
      [Event.mkdir "src/datasources/types",
        Event.writeFile ("src/datasources/types/" ++ "mongo" ++ ".ts")
          (FileContent.text ("\nimport \x7b DataSource \x7d from \x27" ++ "pkg" ++
            "\x27;\nexport default DataSource;\n\t")),
        Event.writeFile ("src/datasources/" ++ "cfg" ++ ".yaml")
          (FileContent.yamlMap (buildConfig "mongo" [("type", "x")]))] ∧
    mapGet (buildConfig "mongo" [("type", "x")]) "type" =
      (lastVal [("type", "x")] "type").or (some "mongo") :=
  ⟨by decide,
    (c4_config_merge_order "pkg" "mongo" "cfg" [("type", "x")] stEmpty).2.1
      (by decide),
    (c4_config_merge_order "pkg" "mongo" "cfg" [("type", "x")] stEmpty).2.2⟩

/-- Witness for C6 at a manifest holding one plugin-namespaced and one
ordinary dependency. -/
theorem c6_witness :
    envC6.isProject = true ∧ envC6.pkgExists = true ∧
    envC6.pkgDeps = some depsC6 ∧
    GetInstalledPlugins envC6 =
      some (depsC6.filter (fun kv => strStarts kv.1 "@godspeedsystems/plugins")) :=
  ⟨rfl, rfl, rfl, (c6_namespace_filtering envC6 depsC6 rfl rfl rfl).1⟩

/-- Witness for C7: the plugin is in the catalog and already installed. -/
theorem c7_witness :
    mapHas instC7 "@godspeedsystems/plugins-aws" = true ∧
    availC7.any (fun pl => pl.value == "@godspeedsystems/plugins-aws") = true ∧
    Add "@godspeedsystems/plugins-aws" envC7 stEmpty =
      (stEmpty, [Event.warn ("Plugin " ++ "@godspeedsystems/plugins-aws" ++
        " is already installed.")]) :=
  ⟨by decide, by decide,
    c7_already_installed_warning "@godspeedsystems/plugins-aws" envC7 stEmpty
      availC7 instC7 rfl rfl (by decide) (by decide) (by decide) (by decide)⟩

/-- Witness for C9 at an event-source descriptor: the repeated creation
returns the identical trace and leaves the file system fixed. -/
theorem c9_witness :
    envC9.resolve "pkg" = some infoES ∧
    createPluginFiles "pkg" envC9 stEmpty = Except.ok (s1C9, trC9) ∧
    createPluginFiles "pkg" envC9 s1C9 = Except.ok (run s1C9 trC9, trC9) ∧
    mapGet (run s1C9 trC9).files ("src/eventsources/" ++ "cf" ++ ".yaml") =
      mapGet s1C9.files ("src/eventsources/" ++ "cf" ++ ".yaml") ∧
    writePaths trC9 = artifactPaths "ES" "ld" "cf" :=
  ⟨rfl, rfl,
    (c9_create_idempotent "pkg" envC9 infoES stEmpty s1C9 trC9 rfl rfl).1,
    (c9_create_idempotent "pkg" envC9 infoES stEmpty s1C9 trC9 rfl rfl).2.1 _,
    (c9_create_idempotent "pkg" envC9 infoES stEmpty s1C9 trC9 rfl rfl).2.2⟩

/-- Witness for C10: the plugin is installed but the loaded catalog is
empty, so the invalid-name error path is taken. -/
theorem c10_witness :
    mapHas instC7 "@godspeedsystems/plugins-aws" = true ∧
    (([] : List Plugin).any
      (fun pl => pl.value == "@godspeedsystems/plugins-aws")) = false ∧
    Add "@godspeedsystems/plugins-aws" envC10 stEmpty =
      (stEmpty, [Event.errorMsg "Please provide a valid plugin name."]) :=
  ⟨by decide, rfl,
    (c10_catalog_checked_before_installed "@godspeedsystems/plugins-aws" envC10
      stEmpty [] instC7 rfl rfl (by decide) (by decide) rfl (by decide)).1⟩

end GSPlugin
